import Mathlib

/-!
Shallow embedding of the compkit library: the Node/Link entity model,
the indexable binary Heap, the Graph/DiGraph structures, the union-find
structure, and the traversal / connectivity / shortest-path / minimum-cut
algorithms, together with theorems settling the claims C1-C10.

The embedding follows the Python source statement by statement.  CPython
runtime errors are modelled explicitly: every operation that can raise
returns `Except PyErr`.  Node and link identifiers are embedded as `Nat`
(the test corpus and the repository use small integer ids); `data`
dictionaries map string keys to embedded Python values.
-/

/-- Runtime errors of the embedded Python code.  `fuelOut` is not a
Python error: it marks exhaustion of the fuel that bounds the while
loops, and it is never produced on the inputs evaluated below. -/
inductive PyErr where
  | typeError
  | keyError
  | indexError
  | attributeError
  | valueError
  | unboundLocalError
  | runtimeError
  | fuelOut
  deriving DecidableEq, Repr

/-- Values stored in a `data` dictionary of a Node or Link, and values
of the distance dictionaries of the shortest-path algorithms: the
library stores numbers (edge weights, heap keys, the float INF used to
initialise distances) and sets of node ids (the multinode sets written
by `contract_edge`). -/
inductive PVal where
  | pint (n : Int)
  | pinf
  | pids (s : List Nat)
  deriving DecidableEq, Repr

/-- Python dict keyed by strings: an insertion-ordered association list
(keys are unique in every dict the embedded code builds). -/
abbrev PyDict (α : Type) := List (String × α)

namespace PyDict

/-- Membership test and `dict.get` lookup: first entry with the key. -/
def get? (d : PyDict α) (k : String) : Option α :=
  match d with
  | [] => none
  | (k1, v) :: rest => if k1 = k then some v else get? rest k

/-- Python `d[k] = v`: replace in place when the key is present (keeping
the insertion order), append otherwise. -/
def set (d : PyDict α) (k : String) (v : α) : PyDict α :=
  match d with
  | [] => [(k, v)]
  | (k1, v1) :: rest => if k1 = k then (k1, v) :: rest else (k1, v1) :: set rest k v

end PyDict

/-- Python dict keyed by ids (ints): an insertion-ordered association
list with unique keys. -/
abbrev IdMap (α : Type) := List (Nat × α)

namespace IdMap

/-- Lookup, `dict.get(k)`. -/
def get? (d : IdMap α) (k : Nat) : Option α :=
  match d with
  | [] => none
  | (k1, v) :: rest => if k1 = k then some v else get? rest k

/-- Python `d[k] = v`: replace in place, or append when absent. -/
def set (d : IdMap α) (k : Nat) (v : α) : IdMap α :=
  match d with
  | [] => [(k, v)]
  | (k1, v1) :: rest => if k1 = k then (k1, v) :: rest else (k1, v1) :: set rest k v

/-- Python `d.pop(k)` when the result value is unused: drop the entry. -/
def pop (d : IdMap α) (k : Nat) : IdMap α :=
  match d with
  | [] => []
  | (k1, v1) :: rest => if k1 = k then rest else (k1, v1) :: pop rest k

/-- Python `d.pop(k)` with no default, returning the value: raises
`KeyError` when the key is absent. -/
def popE (d : IdMap α) (k : Nat) : Except PyErr (α × IdMap α) :=
  match IdMap.get? d k with
  | none => .error .keyError
  | some v => .ok (v, pop d k)

/-- Python `k in d`. -/
def mem (d : IdMap α) (k : Nat) : Bool :=
  (IdMap.get? d k).isSome

/-- Python `list(d)` / iteration order: the keys in insertion order. -/
def keys (d : IdMap α) : List Nat :=
  d.map Prod.fst

end IdMap

/-- compkit.core.types.Node: a frozen dataclass with fields `uid` and
`data`.  The dataclass machinery generates `__eq__` comparing the field
tuple `(uid, data)`; the class defines `__hash__` as `hash(self.uid)`. -/
structure PyNode where
  uid : Nat
  data : PyDict PVal
  deriving DecidableEq, Repr

/-- compkit.core.types.Link: a frozen dataclass with fields `uid`,
`xid`, `yid` and `data`. -/
structure PyLink where
  uid : Nat
  xid : Nat
  yid : Nat
  data : PyDict PVal
  deriving DecidableEq, Repr

/-- Python `==` on two dicts: the dicts are equal when they have the
same keys and equal values under every key, regardless of insertion
order. -/
def pyDictEq (d1 d2 : PyDict PVal) : Bool :=
  d1.all (fun kv => PyDict.get? d2 kv.1 == some kv.2) &&
  d2.all (fun kv => PyDict.get? d1 kv.1 == some kv.2)

/-- Node equality from the source: `@dataclass(frozen=True)` generates
`__eq__` that compares `(self.uid, self.data) == (other.uid, other.data)`
when both operands are Nodes (types.py lines 18-32 define no custom
`__eq__`, only a custom `__hash__`). -/
def nodeEq (x y : PyNode) : Bool :=
  x.uid == y.uid && pyDictEq x.data y.data

/-- CPython hash of a small non-negative int is the int itself. -/
def pyIntHash (u : Nat) : Int := u

/-- `Node.__hash__` from types.py lines 49-50: `return hash(self.uid)`. -/
def nodeHash (x : PyNode) : Int :=
  pyIntHash x.uid

/-- Keys of a dict, used to state that a dict is well formed (Python
dicts never hold a key twice). -/
def dictKeys (d : PyDict α) : List String :=
  d.map Prod.fst

theorem pyDict_get_of_mem {d : PyDict PVal} {k : String} {v : PVal}
    (hnd : (dictKeys d).Nodup) (hmem : (k, v) ∈ d) :
    PyDict.get? d k = some v := by
  induction d with
  | nil => cases hmem
  | cons hd tl ih =>
      obtain ⟨k1, v1⟩ := hd
      simp only [dictKeys, List.map_cons, List.nodup_cons] at hnd
      rcases List.mem_cons.mp hmem with h | h
      · cases h
        simp [PyDict.get?]
      · have hk : k1 ≠ k := by
          intro he
          exact hnd.1 (he ▸ (List.mem_map.mpr ⟨(k, v), h, rfl⟩))
        simp only [PyDict.get?, if_neg hk]
        exact ih hnd.2 h

theorem pyDict_mem_of_get {d : PyDict PVal} {k : String} {v : PVal}
    (hget : PyDict.get? d k = some v) : (k, v) ∈ d := by
  induction d with
  | nil => simp [PyDict.get?] at hget
  | cons hd tl ih =>
      obtain ⟨k1, v1⟩ := hd
      by_cases hk : k1 = k
      · subst hk
        have hv : v1 = v := by simpa [PyDict.get?] using hget
        subst hv
        exact List.mem_cons_self _ _
      · simp only [PyDict.get?, if_neg hk] at hget
        exact List.mem_cons_of_mem _ (ih hget)

/-- Dict equality as the source computes it agrees with pointwise lookup
equality, provided both dicts are well formed (no duplicate keys, which
is automatic for Python dicts). -/
theorem pyDictEq_iff {d1 d2 : PyDict PVal}
    (h1 : (dictKeys d1).Nodup) (h2 : (dictKeys d2).Nodup) :
    pyDictEq d1 d2 = true ↔ ∀ k, PyDict.get? d1 k = PyDict.get? d2 k := by
  constructor
  · intro h k
    simp only [pyDictEq, Bool.and_eq_true, List.all_eq_true] at h
    obtain ⟨ha, hb⟩ := h
    cases hv1 : PyDict.get? d1 k with
    | some v =>
        have hmem := pyDict_mem_of_get hv1
        have h2v := ha (k, v) hmem
        simp only [beq_iff_eq] at h2v
        rw [h2v]
    | none =>
        cases hv2 : PyDict.get? d2 k with
        | none => rfl
        | some w =>
            have hmem := pyDict_mem_of_get hv2
            have := hb (k, w) hmem
            simp only [beq_iff_eq] at this
            rw [hv1] at this
            cases this
  · intro h
    simp only [pyDictEq, Bool.and_eq_true, List.all_eq_true]
    constructor
    · intro kv hmem
      have : PyDict.get? d1 kv.1 = some kv.2 := pyDict_get_of_mem h1 hmem
      simp [← h kv.1, this]
    · intro kv hmem
      have : PyDict.get? d2 kv.1 = some kv.2 := pyDict_get_of_mem h2 hmem
      simp [h kv.1, this]

/-- C4: the claim states that `x == y` holds exactly when the uids are
equal.  Counterexample: two Nodes with uid 0 but different data are not
equal, because the generated dataclass `__eq__` also compares `data`. -/
theorem C4_counterexample :
    (PyNode.mk 0 [("a", .pint 1)]).uid = (PyNode.mk 0 []).uid ∧
    nodeEq (PyNode.mk 0 [("a", .pint 1)]) (PyNode.mk 0 []) = false := by
  constructor
  · rfl
  · rfl

/-- C4 (amended): Node equality holds exactly when the uids are equal
and the data dicts are pointwise equal; the hash depends only on the
uid, so equal-uid Nodes always land in the same hash bucket even when
their data differ. -/
theorem C4_node_eq_hash (x y : PyNode)
    (hx : (dictKeys x.data).Nodup) (hy : (dictKeys y.data).Nodup) :
    (nodeEq x y = true ↔
      x.uid = y.uid ∧ ∀ k, PyDict.get? x.data k = PyDict.get? y.data k) ∧
    (x.uid = y.uid → nodeHash x = nodeHash y) := by
  constructor
  · unfold nodeEq
    rw [Bool.and_eq_true, beq_iff_eq, pyDictEq_iff hx hy]
  · intro h
    unfold nodeHash pyIntHash
    rw [h]

/-- Witness for C4_node_eq_hash at concrete Nodes. -/
theorem C4_node_eq_hash_witness :
    (nodeEq (PyNode.mk 3 [("w", .pint 5)]) (PyNode.mk 3 [("w", .pint 5)]) = true ↔
      (3 : Nat) = 3 ∧ ∀ k, PyDict.get? [("w", PVal.pint 5)] k = PyDict.get? [("w", PVal.pint 5)] k) ∧
    ((3 : Nat) = 3 → nodeHash (PyNode.mk 3 [("w", .pint 5)]) = nodeHash (PyNode.mk 3 [("w", .pint 5)])) :=
  C4_node_eq_hash (PyNode.mk 3 [("w", .pint 5)]) (PyNode.mk 3 [("w", .pint 5)])
    (by decide) (by decide)

/-! ## Heap (compkit.structures.heap) -/

/-- Heap comparison mode: `min` or `max`. -/
inductive HeapMode where
  | hmin
  | hmax
  deriving DecidableEq, Repr

/-- Python `x <= y` on stored values: numbers (including the float INF)
compare numerically, two sets compare by inclusion, and a comparison
mixing a set with a number raises `TypeError`. -/
def pvalLe : PVal → PVal → Except PyErr Bool
  | .pint a, .pint b => .ok (decide (a ≤ b))
  | .pint _, .pinf => .ok true
  | .pinf, .pint _ => .ok false
  | .pinf, .pinf => .ok true
  | .pids a, .pids b => .ok (a.all (fun x => x ∈ b))
  | _, _ => .error .typeError

/-- Python `x >= y` on stored values. -/
def pvalGe : PVal → PVal → Except PyErr Bool
  | .pint a, .pint b => .ok (decide (b ≤ a))
  | .pint _, .pinf => .ok false
  | .pinf, .pint _ => .ok true
  | .pinf, .pinf => .ok true
  | .pids a, .pids b => .ok (b.all (fun x => x ∈ a))
  | _, _ => .error .typeError

/-- Python `x < y` on stored values: strict numeric comparison, proper
inclusion on two sets, `TypeError` on a set/number mix. -/
def pvalLt : PVal → PVal → Except PyErr Bool
  | .pint a, .pint b => .ok (decide (a < b))
  | .pint _, .pinf => .ok true
  | .pinf, .pint _ => .ok false
  | .pinf, .pinf => .ok false
  | .pids a, .pids b => .ok (a.all (fun x => x ∈ b) && !b.all (fun x => x ∈ a))
  | _, _ => .error .typeError

/-- Python `x + y` on stored values: the float INF absorbs any finite
number; adding a set raises `TypeError`. -/
def pvalAdd : PVal → PVal → Except PyErr PVal
  | .pint a, .pint b => .ok (.pint (a + b))
  | .pint _, .pinf => .ok .pinf
  | .pinf, .pint _ => .ok .pinf
  | .pinf, .pinf => .ok .pinf
  | _, _ => .error .typeError

/-- compkit.structures.heap.Heap: `label` is the data key used as the
comparison key, `items` the array-backed tree, `indices` the dict
mapping item uid to its current array slot. -/
structure PyHeap where
  label : String
  mode : HeapMode
  items : List PyNode
  indices : IdMap Nat
  deriving DecidableEq, Repr

namespace PyHeap

/-- Python list subscript: `IndexError` when the index is out of range
(all heap indices are non-negative). -/
def getItemAt (items : List PyNode) (i : Nat) : Except PyErr PyNode :=
  match items.get? i with
  | some x => .ok x
  | none => .error .indexError

/-- `Node.__getitem__` (`x[label]`): `KeyError` when the key is absent. -/
def nodeGet (x : PyNode) (label : String) : Except PyErr PVal :=
  match PyDict.get? x.data label with
  | some v => .ok v
  | none => .error .keyError

/-- `Heap._compare`: `x[label] <= y[label]` in min mode and
`x[label] >= y[label]` in max mode. -/
def hcompare (label : String) (mode : HeapMode) (x y : PyNode) : Except PyErr Bool := do
  let a ← nodeGet x label
  let b ← nodeGet y label
  match mode with
  | .hmin => pvalLe a b
  | .hmax => pvalGe a b

/-- `Heap._parent`: `None` at the root, `(idx - 1) // 2` otherwise. -/
def parentIdx (idx : Nat) : Option Nat :=
  if idx = 0 then none else some ((idx - 1) / 2)

/-- `Heap._left`: `2 * (idx + 1) - 1`, or `None` past the end. -/
def leftIdx (items : List PyNode) (idx : Nat) : Option Nat :=
  let child := 2 * (idx + 1) - 1
  if child ≥ items.length then none else some child

/-- `Heap._right`: `2 * (idx + 1)`, or `None` past the end. -/
def rightIdx (items : List PyNode) (idx : Nat) : Option Nat :=
  let child := 2 * (idx + 1)
  if child ≥ items.length then none else some child

/-- `Heap._swap`: the tuple assignment reads `items[i]` and `items[j]`
(raising `IndexError` when out of range), writes them back swapped, and
re-points both uid entries of `indices`. -/
def swapItems (items : List PyNode) (indices : IdMap Nat) (i j : Nat) :
    Except PyErr (List PyNode × IdMap Nat) := do
  let xi ← getItemAt items i
  let xj ← getItemAt items j
  let items1 := (items.set i xj).set j xi
  let indices1 := IdMap.set (IdMap.set indices xj.uid i) xi.uid j
  .ok (items1, indices1)

/-- `Heap._bubble_up` as a fuel-bounded loop: while the slot has a
parent and compares ahead of it, swap upward.  The source reads
`self.items[c]` before `self.items[p]`, so an out-of-range `c` raises
`IndexError` at that read.  The callers pass fuel `items.length + 1`,
which exceeds the number of iterations of the source loop (the current
slot strictly decreases), so `fuelOut` is unreachable. -/
def bubbleUp (label : String) (mode : HeapMode) (items : List PyNode)
    (indices : IdMap Nat) (c : Nat) : Nat → Except PyErr (List PyNode × IdMap Nat)
  | 0 => .error .fuelOut
  | fuel + 1 =>
    match parentIdx c with
    | none => .ok (items, indices)
    | some p => do
        let xc ← getItemAt items c
        let xp ← getItemAt items p
        let b ← hcompare label mode xc xp
        if b then do
          let (items1, indices1) ← swapItems items indices c p
          bubbleUp label mode items1 indices1 p fuel
        else
          .ok (items, indices)

/-- `Heap._bubble_down` as a fuel-bounded loop: pick the child that
compares ahead (left when there is no right child, or when left compares
ahead of right), then run the `helper` step, which swaps the chosen
child with the current slot when the child compares ahead of it and
descends there.  Fuel `items.length + 1` exceeds the number of
iterations (the slot strictly increases below the length), so `fuelOut`
is unreachable. -/
def bubbleDown (label : String) (mode : HeapMode) (items : List PyNode)
    (indices : IdMap Nat) (p : Nat) : Nat → Except PyErr (List PyNode × IdMap Nat)
  | 0 => .error .fuelOut
  | fuel + 1 =>
    match leftIdx items p with
    | none => .ok (items, indices)
    | some l => do
        let c ←
          match rightIdx items p with
          | none => pure l
          | some r => do
              let xl ← getItemAt items l
              let xr ← getItemAt items r
              let b ← hcompare label mode xl xr
              pure (if b then l else r)
        let xc ← getItemAt items c
        let xp ← getItemAt items p
        let b ← hcompare label mode xc xp
        if b then do
          let (items1, indices1) ← swapItems items indices c p
          bubbleDown label mode items1 indices1 c fuel
        else
          .ok (items, indices)

/-- `Heap.size`. -/
def size (h : PyHeap) : Nat :=
  h.items.length

/-- `Heap.__contains__`: uid membership in `indices`. -/
def contains (h : PyHeap) (nid : Nat) : Bool :=
  IdMap.mem h.indices nid

/-- `Heap.get_item`: `None` when the uid is absent, otherwise the item
at the recorded slot. -/
def getItem (h : PyHeap) (uid : Nat) : Except PyErr (Option PyNode) :=
  match IdMap.get? h.indices uid with
  | none => .ok none
  | some idx => do
      let x ← getItemAt h.items idx
      .ok (some x)

/-- `Heap.insert`: no-op when the uid is present; otherwise append,
record the slot, and bubble up from the last slot. -/
def insert (h : PyHeap) (item : PyNode) : Except PyErr PyHeap := do
  if IdMap.mem h.indices item.uid then
    .ok h
  else
    let items := h.items ++ [item]
    let indices := IdMap.set h.indices item.uid (items.length - 1)
    let (items1, indices1) ← bubbleUp h.label h.mode items indices (items.length - 1) (items.length + 1)
    .ok { h with items := items1, indices := indices1 }

/-- Python `list.pop()`: drop the last element, `IndexError` on an empty
list. -/
def listPop (l : List PyNode) : Except PyErr (List PyNode) :=
  if l.isEmpty then .error .indexError else .ok l.dropLast

/-- `Heap.delete`: no-op when the uid is absent; otherwise swap the
target slot with the last slot, pop the array, drop the uid from
`indices`, then bubble up and bubble down from the vacated slot. -/
def delete (h : PyHeap) (nid : Nat) : Except PyErr PyHeap := do
  match IdMap.get? h.indices nid with
  | none => .ok h
  | some idx => do
      let (items1, indices1) ← swapItems h.items h.indices idx (h.items.length - 1)
      let items2 ← listPop items1
      let indices2 := IdMap.pop indices1 nid
      let (items3, indices3) ← bubbleUp h.label h.mode items2 indices2 idx (items2.length + 1)
      let (items4, indices4) ← bubbleDown h.label h.mode items3 indices3 idx (items3.length + 1)
      .ok { h with items := items4, indices := indices4 }

/-- `Heap.root`: `None` when empty, the slot-0 item otherwise. -/
def root (h : PyHeap) : Except PyErr (Option PyNode) :=
  if h.items.length = 0 then .ok none
  else do
    let x ← getItemAt h.items 0
    .ok (some x)

/-- `Heap.extract`: `None` when empty; otherwise read the root, delete
it by uid, and return it. -/
def extract (h : PyHeap) : Except PyErr (Option PyNode × PyHeap) := do
  if h.items.length = 0 then
    .ok (none, h)
  else do
    let r ← root h
    match r with
    | none => .ok (none, h)
    | some x => do
        let h1 ← delete h x.uid
        .ok (some x, h1)

/-- `Heap.replace`: no-op when `old` is absent; otherwise overwrite the
slot with `new`, drop the old uid from `indices`, record `new.uid` at
that slot, and bubble up then down from it. -/
def replaceItem (h : PyHeap) (oid : Nat) (new : PyNode) : Except PyErr PyHeap := do
  match IdMap.get? h.indices oid with
  | none => .ok h
  | some old_idx => do
      if old_idx ≥ h.items.length then
        .error .indexError
      else do
        let items1 := h.items.set old_idx new
        let indices1 := IdMap.set (IdMap.pop h.indices oid) new.uid old_idx
        let (items2, indices2) ← bubbleUp h.label h.mode items1 indices1 old_idx (items1.length + 1)
        let (items3, indices3) ← bubbleDown h.label h.mode items2 indices2 old_idx (items2.length + 1)
        .ok { h with items := items3, indices := indices3 }

/-- `Heap.modify`: rebuild the item with the new data and replace. -/
def modify (h : PyHeap) (uid : Nat) (data : PyDict PVal) : Except PyErr PyHeap :=
  replaceItem h uid (PyNode.mk uid data)

/-- `Heap.empty`. -/
def isEmpty (h : PyHeap) : Bool :=
  h.items.length = 0

/-- `Heap(label, mode)`: a fresh empty heap. -/
def mkHeap (label : String) (mode : HeapMode) : PyHeap :=
  { label := label, mode := mode, items := [], indices := [] }

end PyHeap

/-- A two-item min-heap built through the public API: insert an item
with key 1 and then an item with key 2 (no swaps occur, the array is
`[uid 0, uid 1]` with `indices = {0: 0, 1: 1}`). -/
def heapTwo : Except PyErr PyHeap := do
  let h := PyHeap.mkHeap "val" .hmin
  let h ← PyHeap.insert h (PyNode.mk 0 [("val", .pint 1)])
  PyHeap.insert h (PyNode.mk 1 [("val", .pint 2)])

/-- C1: deleting the item that sits in the last slot of a two-item heap
raises `IndexError` instead of returning with the invariant restored:
after the swap with the last slot and the pop, `_bubble_up` is called on
the now out-of-range vacated slot and `self.items[c]` raises. -/
theorem C1_delete_last_slot_crashes :
    (heapTwo >>= fun h => PyHeap.delete h 1) = .error .indexError := by
  rfl

/-- Sanity check kept alongside C1: the same deletion applied to the
root slot (via extract) succeeds and leaves the singleton heap, so the
crash is specific to the vacated last slot. -/
theorem C1_extract_root_ok :
    (heapTwo >>= fun h => PyHeap.extract h) =
      .ok (some (PyNode.mk 0 [("val", .pint 1)]),
        { label := "val", mode := .hmin,
          items := [PyNode.mk 1 [("val", .pint 2)]],
          indices := [(1, 0)] }) := by
  rfl

/-! ## Graph (compkit.structures.graph.Graph, undirected) -/

/-- Adjacency index: node id to neighbour id to the set of link ids
between them (a Python `defaultdict(set)` per node; the set is embedded
as a duplicate-free insertion-ordered list). -/
abbrev Adj := IdMap (IdMap (List Nat))

/-- Python `set.add`. -/
def setAdd (s : List Nat) (x : Nat) : List Nat :=
  if x ∈ s then s else s ++ [x]

/-- Python `set.remove`: `KeyError` when the element is absent. -/
def setRemove (s : List Nat) (x : Nat) : Except PyErr (List Nat) :=
  if x ∈ s then .ok (s.filter (fun z => z ≠ x)) else .error .keyError

/-- Plain dict subscript on the outer adjacency dict (`self.graph[xid]`):
`KeyError` when the node has no row. -/
def adjRow (g : Adj) (x : Nat) : Except PyErr (IdMap (List Nat)) :=
  match IdMap.get? g x with
  | some r => .ok r
  | none => .error .keyError

/-- Inner `defaultdict(set)` subscript (`row[yid]`): returns the set,
inserting an empty set under the key when absent. -/
def ddGet (row : IdMap (List Nat)) (y : Nat) : List Nat × IdMap (List Nat) :=
  match IdMap.get? row y with
  | some s => (s, row)
  | none => ([], IdMap.set row y [])

/-- compkit.structures.graph.Graph: nodes, links, and the symmetric
adjacency index. -/
structure PyGraph where
  nodes : IdMap PyNode
  edges : IdMap PyLink
  graph : Adj
  deriving DecidableEq, Repr

namespace PyGraph

/-- `Graph()`. -/
def mkGraph : PyGraph :=
  { nodes := [], edges := [], graph := [] }

/-- `Graph.add_node`: no-op when the uid is present, otherwise store the
node and allocate its empty adjacency row. -/
def addNode (G : PyGraph) (x : PyNode) : PyGraph :=
  if IdMap.mem G.nodes x.uid then G
  else
    { G with
      nodes := IdMap.set G.nodes x.uid x
      graph := IdMap.set G.graph x.uid [] }

/-- `Graph.add_nodes`. -/
def addNodes (G : PyGraph) (xs : List PyNode) : PyGraph :=
  xs.foldl addNode G

/-- `Graph.add_edge`: no-op on a duplicate link uid; otherwise create
bare endpoint nodes when missing, store the link, and index its uid
under both adjacency directions. -/
def addEdge (G : PyGraph) (e : PyLink) : Except PyErr PyGraph := do
  if IdMap.mem G.edges e.uid then
    .ok G
  else do
    let G1 := addNodes G [PyNode.mk e.xid [], PyNode.mk e.yid []]
    let edges1 := IdMap.set G1.edges e.uid e
    let rowx ← adjRow G1.graph e.xid
    let (sx, rowx1) := ddGet rowx e.yid
    let g1 := IdMap.set G1.graph e.xid (IdMap.set rowx1 e.yid (setAdd sx e.uid))
    let rowy ← adjRow g1 e.yid
    let (sy, rowy1) := ddGet rowy e.xid
    let g2 := IdMap.set g1 e.yid (IdMap.set rowy1 e.xid (setAdd sy e.uid))
    .ok { G1 with edges := edges1, graph := g2 }

/-- `Graph.add_edges`. -/
def addEdges (G : PyGraph) (es : List PyLink) : Except PyErr PyGraph :=
  es.foldlM addEdge G

/-- `Graph.remove_edge`: no-op when the uid is absent; otherwise drop
the uid from both adjacency sets (the sets stay indexed under their
keys, possibly empty) and drop the link. -/
def removeEdge (G : PyGraph) (eid : Nat) : Except PyErr PyGraph := do
  match IdMap.get? G.edges eid with
  | none => .ok G
  | some e => do
      let rowx ← adjRow G.graph e.xid
      let (sx, rowx1) := ddGet rowx e.yid
      let sx1 ← setRemove sx eid
      let g1 := IdMap.set G.graph e.xid (IdMap.set rowx1 e.yid sx1)
      let rowy ← adjRow g1 e.yid
      let (sy, rowy1) := ddGet rowy e.xid
      let sy1 ← setRemove sy eid
      let g2 := IdMap.set g1 e.yid (IdMap.set rowy1 e.xid sy1)
      .ok { G with edges := IdMap.pop G.edges eid, graph := g2 }

/-- `Graph.remove_edges`. -/
def removeEdges (G : PyGraph) (es : List Nat) : Except PyErr PyGraph :=
  es.foldlM removeEdge G

/-- `Graph.remove_node`: no-op when absent; otherwise, for every key of
the live row of `x`, pop `x` from the neighbour row and drop the popped
link ids, then drop the row and the node.  The source iterates the row
of `x` while the body pops from the rows it visits; when `x` itself is a
key of its own row (a self-loop), the body pops from the dict being
iterated and CPython raises `RuntimeError` at the next iteration step. -/
def removeNode (G : PyGraph) (x : Nat) : Except PyErr PyGraph := do
  if ¬ IdMap.mem G.nodes x then
    .ok G
  else do
    let row ← adjRow G.graph x
    let ks := IdMap.keys row
    if x ∈ ks then
      .error .runtimeError
    else do
      let st ← ks.foldlM
        (fun (st : Adj × IdMap PyLink) yid => do
          let (g, es) := st
          let rowy ← adjRow g yid
          let (eids, rowy1) ← IdMap.popE rowy x
          let g1 := IdMap.set g yid rowy1
          let es1 ← eids.foldlM (fun acc eid => do
            let (_, acc1) ← IdMap.popE acc eid
            pure acc1) es
          pure (g1, es1))
        (G.graph, G.edges)
      let (g2, es2) := st
      .ok { nodes := IdMap.pop G.nodes x, edges := es2, graph := IdMap.pop g2 x }

/-- `Graph.get_nodes()`: node ids in insertion order. -/
def getNodes (G : PyGraph) : List Nat :=
  IdMap.keys G.nodes

/-- `Graph.adjacent` with `as_nodes=False`: the keys of the adjacency
row (`KeyError` when the node is absent). -/
def adjacent (G : PyGraph) (x : Nat) : Except PyErr (List Nat) := do
  if ¬ IdMap.mem G.nodes x then
    .error .keyError
  else do
    let row ← adjRow G.graph x
    .ok (IdMap.keys row)

/-- `Graph.get_edges_between` with the default `as_links=False`: checks
both endpoints are present (`KeyError` otherwise) and returns the list
of link IDS between them (`row.get(yid, [])`, no defaultdict insertion).
The callers inside `dijkstra` and `contract_edge` rely on this default
and therefore receive ids, not Link objects. -/
def getEdgesBetween (G : PyGraph) (x y : Nat) : Except PyErr (List Nat) := do
  if ¬ IdMap.mem G.nodes x then
    .error .keyError
  else if ¬ IdMap.mem G.nodes y then
    .error .keyError
  else do
    let row ← adjRow G.graph x
    .ok ((IdMap.get? row y).getD [])

/-- `Graph.order`. -/
def order (G : PyGraph) : Nat :=
  G.nodes.length

/-- `Graph.size`. -/
def gsize (G : PyGraph) : Nat :=
  G.edges.length

end PyGraph

/-- Python `{xid}` set literal followed by `|` union of two multinode
values.  The library only ever stores id sets under the multinode key,
so the set/set case is the only one reachable; `|` between a set and a
number raises `TypeError`. -/
def pvalUnion : PVal → PVal → Except PyErr PVal
  | .pids a, .pids b => .ok (.pids (a ++ b.filter (fun z => z ∉ a)))
  | _, _ => .error .typeError

/-- Attribute access `f.uid` (and `f.data`) on a plain int: in the list
comprehension of `contract_edge` the loop variable ranges over link IDS
(because `get_edges_between` was called without `as_links=True`), and an
int has no attribute `uid`, so CPython raises `AttributeError`. -/
def intAttrUid (_f : Nat) : Except PyErr PyLink :=
  .error .attributeError

namespace PyGraph

/-- `Graph.contract_edge(e, key)`: merge the endpoints of `e`, keeping
`e.xid`.  Statement by statement from the source: fold the multinode
sets into the surviving node, remove `e`, then for every neighbour of
`e.yid` take the link ids between them (the `as_links=False` default),
remove those links, and rebuild them as `Link(f.uid, xid, zid, f.data)`
where `f` ranges over the IDS just obtained; finally remove `e.yid`. -/
def contractEdge (G : PyGraph) (eid : Nat) (key : String) : Except PyErr PyGraph := do
  match IdMap.get? G.edges eid with
  | none => .ok G
  | some e => do
      let xid := e.xid
      let yid := e.yid
      let nx ← match IdMap.get? G.nodes xid with
        | some n => pure n
        | none => .error .keyError
      let ny ← match IdMap.get? G.nodes yid with
        | some n => pure n
        | none => .error .keyError
      let mx := (PyDict.get? nx.data key).getD (.pids [xid])
      let my := (PyDict.get? ny.data key).getD (.pids [yid])
      let mu ← pvalUnion mx my
      let nx1 := { nx with data := PyDict.set nx.data key mu }
      let G := { G with nodes := IdMap.set G.nodes xid nx1 }
      let G ← removeEdge G eid
      let adj ← adjacent G yid
      let G ← adj.foldlM
        (fun (G : PyGraph) zid => do
          let es ← getEdgesBetween G yid zid
          let G ← removeEdges G es
          let newLinks ← es.mapM intAttrUid
          addEdges G newLinks)
        G
      removeNode G yid

end PyGraph

/-- The path graph 0 - 1 - 2 with link 10 between 0 and 1 and link 11
between 1 and 2, built through the public `add_edge` API. -/
def pathGraph : Except PyErr PyGraph := do
  let G ← PyGraph.addEdge PyGraph.mkGraph (PyLink.mk 10 0 1 [])
  PyGraph.addEdge G (PyLink.mk 11 1 2 [])

/-- C6: contracting edge 10 of the path graph crashes with
`AttributeError` while re-pointing the edge between the removed node 1
and its other neighbour 2: `get_edges_between` is called without
`as_links=True`, so the comprehension subscripts plain link ids. -/
theorem C6_contract_edge_crashes :
    (pathGraph >>= fun G => PyGraph.contractEdge G 10 "multinode") =
      .error .attributeError := by
  rfl

/-- Sanity check kept alongside C6: contracting the only edge of a
two-node graph (nothing to re-point) succeeds, removes node 1, drops
the contracted edge without creating a self-loop, and folds the
multinode set {0, 1} into the surviving node 0. -/
theorem C6_contract_single_edge_ok :
    (PyGraph.addEdge PyGraph.mkGraph (PyLink.mk 10 0 1 []) >>=
      fun G => PyGraph.contractEdge G 10 "multinode") =
      .ok { nodes := [(0, PyNode.mk 0 [("multinode", .pids [0, 1])])],
            edges := [],
            graph := [(0, [])] } := by
  rfl

/-! ## Traversal and weak connectivity (traversal.py, connectivity.py) -/

/-- Python `x not in ignore` where `ignore` is an optional set: when the
caller left the default `ignore=None` in place, `in` against `None`
raises `TypeError` (NoneType is not iterable / not a container). -/
def pyNotInOpt (x : Nat) : Option (List Nat) → Except PyErr Bool
  | none => .error .typeError
  | some l => .ok (x ∉ l)

/-- `breadth_first_search(G, s, ignore, as_nodes=False)`: `KeyError`
when `s` is absent; `ignore` is normalised to the empty set when `None`;
then the standard queue expansion over adjacent node ids.  The fuel
bounds the while loop; every dequeued id was enqueued exactly once and
ids are only enqueued when newly explored, so `G.order + 1` fuel is
never exhausted. -/
def bfsLoop (G : PyGraph) (ignore : List Nat) :
    List Nat → List Nat → Nat → Except PyErr (List Nat)
  | explored, [], _ => .ok explored
  | _, _ :: _, 0 => .error .fuelOut
  | explored, x :: queue, fuel + 1 => do
      let adj ← PyGraph.adjacent G x
      let st := adj.foldl
        (fun (st : List Nat × List Nat) y =>
          let (explored, queue) := st
          if y ∉ explored ∧ y ∉ ignore then (explored ++ [y], queue ++ [y])
          else (explored, queue))
        (explored, queue)
      bfsLoop G ignore st.1 st.2 fuel

/-- `breadth_first_search` entry point (ids mode). -/
def breadthFirstSearch (G : PyGraph) (s : Nat) (ignore : Option (List Nat)) :
    Except PyErr (List Nat) := do
  if ¬ IdMap.mem G.nodes s then
    .error .keyError
  else
    let ig := ignore.getD []
    bfsLoop G ig [s] [s] (PyGraph.order G + 1)

/-- `graph_search(G, traversal_method="bfs", ignore=None, as_nodes=False)`:
repeatedly launch the traversal from every node that is not yet explored
and not ignored.  The guard is `x not in explored and x not in ignore`:
the first conjunct short-circuits, but for the first unexplored node the
second conjunct evaluates `x not in ignore` against the untouched
default `ignore=None` and raises `TypeError` — `graph_search` never
normalises `ignore`, only `bfs`/`dfs` do. -/
def graphSearch (G : PyGraph) (ignore : Option (List Nat)) :
    Except PyErr (List (List Nat)) := do
  let st ← (PyGraph.getNodes G).foldlM
    (fun (st : List Nat × List (List Nat)) x => do
      let (explored, components) := st
      if x ∈ explored then
        pure st
      else do
        let notIgnored ← pyNotInOpt x ignore
        if notIgnored then do
          let component ← breadthFirstSearch G x ignore
          pure (explored ++ component.filter (fun z => z ∉ explored), components ++ [component])
        else
          pure st)
    ([], [])
  .ok st.2

/-- `Graph.to_undirected` on an undirected Graph: `return self`. -/
def graphToUndirected (G : PyGraph) : PyGraph :=
  G

/-- `connected_components(G, ignore=None, as_nodes=False)` on an
undirected Graph: `to_undirected()` returns the graph itself and the
call forwards the caller-supplied `ignore` (by default `None`) to
`graph_search`. -/
def connectedComponents (G : PyGraph) (ignore : Option (List Nat)) :
    Except PyErr (List (List Nat)) :=
  graphSearch (graphToUndirected G) ignore

/-- `connectivity(G, ignore=None)`: with an empty or missing `ignore`
the `as_nodes` sniffing is skipped and the component count is taken. -/
def connectivity (G : PyGraph) (ignore : Option (List Nat)) : Except PyErr Nat := do
  let cs ← connectedComponents G ignore
  .ok cs.length

/-- `connected(G, ignore=None)`: `connectivity(G, ignore) <= 1`. -/
def connected (G : PyGraph) (ignore : Option (List Nat)) : Except PyErr Bool := do
  let c ← connectivity G ignore
  .ok (decide (c ≤ 1))

/-- A graph holding the single bare node 0. -/
def oneNodeGraph : PyGraph :=
  PyGraph.addNode PyGraph.mkGraph (PyNode.mk 0 [])

/-- C7: `graph_search` (and through it `connected_components`) with the
default arguments raises `TypeError` on any graph with at least one
node: the membership test `x not in ignore` runs against the default
`ignore=None`. -/
theorem C7_graph_search_crashes :
    graphSearch oneNodeGraph none = .error .typeError ∧
    connectedComponents oneNodeGraph none = .error .typeError := by
  constructor
  · rfl
  · rfl

/-- Sanity check kept alongside C7: when a caller works around the bug
by passing an explicit empty ignore set, the search does return the
connected components (here of the path 0 - 1 - 2 plus isolated node 5). -/
theorem C7_graph_search_with_empty_ignore_ok :
    (pathGraph >>= fun G =>
      graphSearch (PyGraph.addNode G (PyNode.mk 5 [])) (some [])) =
      .ok [[0, 1, 2], [5]] := by
  rfl

/-! ## UnionFind (compkit.structures.union_find) -/

/-- Per-item record of `union_find.Data`: parent id (None at a root)
and rank. -/
structure UFData where
  parent : Option Nat
  rank : Nat
  deriving DecidableEq, Repr

/-- compkit.structures.union_find.UnionFind.  The constructor body is
`self.items: dict[ID, Node]` — a bare annotation that never assigns the
attribute — followed by `self.datum: dict[ID, Data] = {}` which does.
The unassigned attribute is embedded as an `Option` that construction
leaves at `none`. -/
structure PyUnionFind where
  itemsAttr : Option (IdMap PyNode)
  datum : IdMap UFData
  deriving DecidableEq, Repr

namespace PyUnionFind

/-- `UnionFind()`: `datum` becomes an empty dict, `items` is never
assigned. -/
def mkUnionFind : PyUnionFind :=
  { itemsAttr := none, datum := [] }

/-- Attribute read `self.items`: `AttributeError` when the constructor
never assigned it. -/
def itemsOf (U : PyUnionFind) : Except PyErr (IdMap PyNode) :=
  match U.itemsAttr with
  | none => .error .attributeError
  | some m => .ok m

/-- `UnionFind.add`: the guard `item.uid in self.items` reads the
`items` attribute first; on success it stores the item and a fresh
root record. -/
def add (U : PyUnionFind) (item : PyNode) : Except PyErr PyUnionFind := do
  let items ← itemsOf U
  if IdMap.mem items item.uid then
    .ok U
  else
    .ok { itemsAttr := some (IdMap.set items item.uid item),
          datum := IdMap.set U.datum item.uid ⟨none, 0⟩ }

/-- The parent-chasing loop of `UnionFind.find` with path splitting:
each visited id re-points its parent to its grandparent.  Fuel bounds
the chain length; every find call below runs on concrete states where
the chain is shorter than the fuel. -/
def findLoop (datum : IdMap UFData) (cid : Nat) :
    Nat → Except PyErr (Nat × IdMap UFData)
  | 0 => .error .fuelOut
  | fuel + 1 =>
    match IdMap.get? datum cid with
    | none => .error .keyError
    | some d =>
        match d.parent with
        | none => .ok (cid, datum)
        | some parent =>
            match IdMap.get? datum parent with
            | none => .error .keyError
            | some dp =>
                let datum1 := IdMap.set datum cid ⟨dp.parent, d.rank⟩
                findLoop datum1 parent fuel

/-- `UnionFind.find`: `None` when the uid was never added (but the
membership guard reads `self.items` and raises `AttributeError` on a
fresh instance); otherwise chase parents to the root with path
splitting. -/
def find (U : PyUnionFind) (uid : Nat) : Except PyErr (Option Nat × PyUnionFind) := do
  let items ← itemsOf U
  if ¬ IdMap.mem items uid then
    .ok (none, U)
  else do
    let (root, datum1) ← findLoop U.datum uid (U.datum.length + 1)
    .ok (some root, { U with datum := datum1 })

/-- `UnionFind.union`: find both roots (inheriting the `AttributeError`
of `find`), no-op when either is missing or both agree, otherwise
attach by rank. -/
def union (U : PyUnionFind) (uid vid : Nat) : Except PyErr PyUnionFind := do
  let (uset?, U) ← find U uid
  let (vset?, U) ← find U vid
  match uset?, vset? with
  | none, _ => .ok U
  | _, none => .ok U
  | some uset, some vset =>
      if uset = vset then
        .ok U
      else do
        let du ← match IdMap.get? U.datum uset with
          | some d => pure d
          | none => .error .keyError
        let dv ← match IdMap.get? U.datum vset with
          | some d => pure d
          | none => .error .keyError
        let (uset, vset, du, dv) :=
          if du.rank < dv.rank then (vset, uset, dv, du) else (uset, vset, du, dv)
        let datum1 := IdMap.set U.datum vset ⟨some uset, dv.rank⟩
        let datum2 :=
          if du.rank = dv.rank then
            IdMap.set datum1 uset ⟨du.parent, du.rank + 1⟩
          else datum1
        .ok { U with datum := datum2 }

end PyUnionFind

/-- C5: on a freshly constructed UnionFind, `add` raises
`AttributeError` — the constructor only annotates `self.items` and
never assigns it, so the membership guard `item.uid in self.items`
fails.  `find` and `union` read the same attribute and fail the same
way, so no singleton partition can ever be created. -/
theorem C5_union_find_add_crashes :
    PyUnionFind.add PyUnionFind.mkUnionFind (PyNode.mk 0 []) =
      .error .attributeError ∧
    PyUnionFind.find PyUnionFind.mkUnionFind 0 = .error .attributeError ∧
    PyUnionFind.union PyUnionFind.mkUnionFind 0 1 = .error .attributeError := by
  refine ⟨rfl, rfl, rfl⟩

/-! ## DiGraph (compkit.structures.graph.DiGraph) -/

/-- compkit.structures.graph.DiGraph: nodes, links, and the forward
(successor) and reverse (predecessor) adjacency indices. -/
structure PyDiGraph where
  nodes : IdMap PyNode
  edges : IdMap PyLink
  forwardG : Adj
  reverseG : Adj
  deriving DecidableEq, Repr

namespace PyDiGraph

/-- `DiGraph()`. -/
def mkDiGraph : PyDiGraph :=
  { nodes := [], edges := [], forwardG := [], reverseG := [] }

/-- `DiGraph.add_node`: no-op on a present uid; otherwise store the node
and allocate empty rows in both indices. -/
def addNode (D : PyDiGraph) (x : PyNode) : PyDiGraph :=
  if IdMap.mem D.nodes x.uid then D
  else
    { D with
      nodes := IdMap.set D.nodes x.uid x
      forwardG := IdMap.set D.forwardG x.uid []
      reverseG := IdMap.set D.reverseG x.uid [] }

/-- `DiGraph.add_nodes`. -/
def addNodes (D : PyDiGraph) (xs : List PyNode) : PyDiGraph :=
  xs.foldl addNode D

/-- `DiGraph.add_edge`: no-op on a duplicate uid; otherwise create bare
endpoint nodes when missing and index the link uid under
`forward[xid][yid]` and `reverse[yid][xid]`. -/
def addEdge (D : PyDiGraph) (e : PyLink) : Except PyErr PyDiGraph := do
  if IdMap.mem D.edges e.uid then
    .ok D
  else do
    let D1 := addNodes D [PyNode.mk e.xid [], PyNode.mk e.yid []]
    let edges1 := IdMap.set D1.edges e.uid e
    let rowf ← adjRow D1.forwardG e.xid
    let (sf, rowf1) := ddGet rowf e.yid
    let f1 := IdMap.set D1.forwardG e.xid (IdMap.set rowf1 e.yid (setAdd sf e.uid))
    let rowr ← adjRow D1.reverseG e.yid
    let (sr, rowr1) := ddGet rowr e.xid
    let r1 := IdMap.set D1.reverseG e.yid (IdMap.set rowr1 e.xid (setAdd sr e.uid))
    .ok { D1 with edges := edges1, forwardG := f1, reverseG := r1 }

/-- `DiGraph.add_edges`. -/
def addEdges (D : PyDiGraph) (es : List PyLink) : Except PyErr PyDiGraph :=
  es.foldlM addEdge D

/-- `DiGraph.get_nodes()`: ids in insertion order. -/
def getNodes (D : PyDiGraph) : List Nat :=
  IdMap.keys D.nodes

/-- `DiGraph.get_edges(as_links=True)`: the Link values in insertion
order. -/
def getLinks (D : PyDiGraph) : List PyLink :=
  D.edges.map Prod.snd

/-- `DiGraph.adjacent` (ids): keys of the forward row. -/
def adjacent (D : PyDiGraph) (x : Nat) : Except PyErr (List Nat) := do
  if ¬ IdMap.mem D.nodes x then
    .error .keyError
  else do
    let row ← adjRow D.forwardG x
    .ok (IdMap.keys row)

/-- `DiGraph.coadjacent` (ids): keys of the reverse row. -/
def coadjacent (D : PyDiGraph) (x : Nat) : Except PyErr (List Nat) := do
  if ¬ IdMap.mem D.nodes x then
    .error .keyError
  else do
    let row ← adjRow D.reverseG x
    .ok (IdMap.keys row)

/-- `DiGraph.order`. -/
def order (D : PyDiGraph) : Nat :=
  D.nodes.length

end PyDiGraph

/-! ## Strongly connected components (connectivity.py, Kosaraju) -/

/-- The recursive `visit` closure of `strongly_connected_components`
(ids mode): mark `x` explored, recurse into each unexplored, unignored
co-neighbour, then append `x` to the finish ordering.  The guard is
`y not in explored and y not in ignore`, so with the default
`ignore=None` the second conjunct raises `TypeError` whenever it is
evaluated.  Fuel bounds the recursion depth; every call below runs with
fuel exceeding the node count. -/
def sccVisit (D : PyDiGraph) (ignore : Option (List Nat)) :
    Nat → List Nat → List Nat → Nat → Except PyErr (List Nat × List Nat)
  | _, _, _, 0 => .error .fuelOut
  | x, explored, ordering, fuel + 1 => do
      let explored := setAdd explored x
      let coadj ← PyDiGraph.coadjacent D x
      let st ← coadj.foldlM
        (fun (st : List Nat × List Nat) y => do
          let (explored, ordering) := st
          if y ∈ explored then
            pure st
          else do
            let ni ← pyNotInOpt y ignore
            if ni then sccVisit D ignore y explored ordering fuel
            else pure st)
        (explored, ordering)
      .ok (st.1, st.2 ++ [x])

/-- The `assign` closure of `strongly_connected_components`: record the
component of `x`, then walk the successors; for each unassigned,
unignored successor the source executes `assigned(y, c)` — a call on
the dict object `assigned` instead of the function `assign` — and
CPython raises `TypeError` (dict objects are not callable). -/
def sccAssign (D : PyDiGraph) (ignore : Option (List Nat)) (x c : Nat)
    (assigned : IdMap Nat) : Except PyErr (IdMap Nat) := do
  let assigned := IdMap.set assigned x c
  let adj ← PyDiGraph.adjacent D x
  adj.foldlM
    (fun (assigned : IdMap Nat) y => do
      if IdMap.mem assigned y then
        pure assigned
      else do
        let ni ← pyNotInOpt y ignore
        if ni then
          .error .typeError
        else
          pure assigned)
    assigned

/-- `strongly_connected_components(D, ignore=None, as_nodes=False)`:
first pass builds the finish ordering by DFS over the reverse index,
second pass assigns component numbers in reverse-finish order, and the
components are collected per number.  Both passes guard each node with
`not in explored/assigned and x not in ignore`. -/
def stronglyConnectedComponents (D : PyDiGraph) (ignore : Option (List Nat)) :
    Except PyErr (List (List Nat)) := do
  let st ← (PyDiGraph.getNodes D).foldlM
    (fun (st : List Nat × List Nat) x => do
      let (explored, ordering) := st
      if x ∈ explored then
        pure st
      else do
        let ni ← pyNotInOpt x ignore
        if ni then sccVisit D ignore x explored ordering (D.nodes.length + 1)
        else pure st)
    ([], [])
  let st2 ← st.2.reverse.foldlM
    (fun (st2 : IdMap Nat × Nat) x => do
      let (assigned, c) := st2
      if IdMap.mem assigned x then
        pure st2
      else do
        let ni ← pyNotInOpt x ignore
        if ni then do
          let assigned1 ← sccAssign D ignore x c assigned
          pure (assigned1, c + 1)
        else
          pure st2)
    ([], 0)
  let (assigned, c) := st2
  .ok ((List.range c).map (fun i => (assigned.filter (fun p => p.2 = i)).map Prod.fst))

/-- A digraph holding the single bare node 0. -/
def oneNodeDigraph : PyDiGraph :=
  PyDiGraph.addNode PyDiGraph.mkDiGraph (PyNode.mk 0 [])

/-- The directed two-cycle 0 -> 1 -> 0 (links 20 and 21). -/
def twoCycleDigraph : Except PyErr PyDiGraph := do
  let D ← PyDiGraph.addEdge PyDiGraph.mkDiGraph (PyLink.mk 20 0 1 [("w", .pint (-1))])
  PyDiGraph.addEdge D (PyLink.mk 21 1 0 [("w", .pint (-1))])

/-- C3: `strongly_connected_components` with its default arguments
raises `TypeError` on any digraph with at least one node — the first
pass evaluates `x not in ignore` against the default `ignore=None`. -/
theorem C3_scc_crashes :
    stronglyConnectedComponents oneNodeDigraph none = .error .typeError := by
  rfl

/-- Sanity check kept alongside C3: even when the caller passes an
explicit empty ignore set, the assign pass crashes with `TypeError` on
the two-cycle, because the recursion step is written `assigned(y, c)` —
calling the dict — instead of `assign(y, c)`. -/
theorem C3_scc_assign_dict_call_crashes :
    (twoCycleDigraph >>= fun D => stronglyConnectedComponents D (some [])) =
      .error .typeError := by
  rfl

/-- Sanity check kept alongside C3: on a single node (where neither
buggy line is reached once ignore is an explicit empty set) the
function does return the singleton partition. -/
theorem C3_scc_single_node_ok :
    stronglyConnectedComponents oneNodeDigraph (some []) = .ok [[0]] := by
  rfl

/-! ## Shortest paths (shortest_path.py) -/

/-- `Link.__getitem__` (`e[label]`): `KeyError` when the key is absent. -/
def linkGet (e : PyLink) (lab : String) : Except PyErr PVal :=
  match PyDict.get? e.data lab with
  | some v => .ok v
  | none => .error .keyError

/-- Subscript `e[label]` where `e` is a plain int: inside `dijkstra` the
generator `min(e[label] for e in G.get_edges_between(x, y))` ranges over
link IDS, because `get_edges_between` was called without
`as_links=True`; subscripting an int raises `TypeError`. -/
def intSubscript (_e : Nat) (_lab : String) : Except PyErr PVal :=
  .error .typeError

/-- Python `min` over the subscripted ids: `ValueError` on an empty
sequence, otherwise the first subscription already raises. -/
def pyMinIds (es : List Nat) (lab : String) : Except PyErr PVal := do
  match es with
  | [] => .error .valueError
  | e0 :: rest => do
      let v0 ← intSubscript e0 lab
      rest.foldlM
        (fun best e => do
          let v ← intSubscript e lab
          let lt ← pvalLt v best
          pure (if lt then v else best))
        v0

/-- Python `==` between an int id and a Node object: the dataclass
`__eq__` returns NotImplemented for a non-Node operand and the reflected
int comparison does the same, so `==` is False.  Hence the membership
test `y in explored` in `dijkstra` — an id probed against a set of
extracted Node objects — never finds anything. -/
def idEqNode (_y : Nat) (_n : PyNode) : Bool :=
  false

/-- Membership of an id in the `explored` set of Node objects. -/
def pyIdMemNodes (y : Nat) (s : List PyNode) : Bool :=
  s.any (idEqNode y)

/-- Lookup `dist[x]` where `x` is a Node object and `dist` is keyed by
int ids: the Node hashes like its uid, but the bucket comparison
`id == node` is False (see `idEqNode`), so the subscript raises
`KeyError` on every state `dijkstra` can build. -/
def distLookupNodeKey (_dist : IdMap PVal) (_x : PyNode) : Except PyErr PVal :=
  .error .keyError

/-- The while loop of `dijkstra`: extract the heap root, mark it
explored, record its distance, and relax its neighbours; relaxation
takes the minimum label over the parallel link ids between the pair.
Fuel bounds the loop. -/
def dijkstraLoop (G : PyGraph) (lab : String) :
    IdMap PVal → PyHeap → List PyNode → Nat → Except PyErr (IdMap PVal)
  | dist, frontier, _, 0 =>
      if PyHeap.isEmpty frontier then .ok dist else .error .fuelOut
  | dist, frontier, explored, fuel + 1 => do
      if PyHeap.isEmpty frontier then
        .ok dist
      else do
        let (x?, frontier) ← PyHeap.extract frontier
        match x? with
        | none => .ok dist
        | some x => do
            let explored := explored ++ [x]
            let dx ← PyHeap.nodeGet x "distance"
            let dist := IdMap.set dist x.uid dx
            let adj ← PyGraph.adjacent G x.uid
            let st ← adj.foldlM
              (fun (st : IdMap PVal × PyHeap) y => do
                let (dist, frontier) := st
                if pyIdMemNodes y explored then
                  pure st
                else do
                  let eids ← PyGraph.getEdgesBetween G x.uid y
                  let best ← pyMinIds eids lab
                  let dxv ← distLookupNodeKey dist x
                  let temp ← pvalAdd dxv best
                  if PyHeap.contains frontier y then do
                    let cur? ← PyHeap.getItem frontier y
                    match cur? with
                    | none => .error .keyError
                    | some cn => do
                        let cv ← PyHeap.nodeGet cn "distance"
                        let lt ← pvalLt temp cv
                        if lt then do
                          let frontier1 ← PyHeap.modify frontier y [("distance", temp)]
                          pure (dist, frontier1)
                        else
                          pure (dist, frontier)
                  else do
                    let dist1 := IdMap.set dist y temp
                    let frontier1 ← PyHeap.insert frontier (PyNode.mk y [("distance", temp)])
                    pure (dist1, frontier1))
              (dist, frontier)
            dijkstraLoop G lab st.1 st.2 explored fuel

/-- `dijkstra(G, s, label)` (ids mode, `include_prev=False`):
`ValueError` when `s` is absent; otherwise initialise every distance to
the float INF, the source to 0, seed the min-heap keyed on the synthetic
"distance" attribute, and run the extraction loop. -/
def dijkstra (G : PyGraph) (s : Nat) (lab : String) : Except PyErr (IdMap PVal) := do
  if ¬ IdMap.mem G.nodes s then
    .error .valueError
  else do
    let dist := (PyGraph.getNodes G).foldl (fun d x => IdMap.set d x .pinf) []
    let dist := IdMap.set dist s (.pint 0)
    let frontier := PyHeap.mkHeap "distance" .hmin
    let frontier ← PyHeap.insert frontier (PyNode.mk s [("distance", .pint 0)])
    dijkstraLoop G lab dist frontier []
      (PyGraph.order G * PyGraph.order G + 2)

/-- One relaxation pass of `bellman_ford` over all links in insertion
order, returning the updated distances and the `changed` flag (reset to
False at the start of every pass). -/
def bfPass (links : List PyLink) (lab : String) (dist : IdMap PVal) :
    Except PyErr (IdMap PVal × Bool) :=
  links.foldlM
    (fun (st : IdMap PVal × Bool) e => do
      let (dist, changed) := st
      let dl := (IdMap.get? dist e.xid).getD .pinf
      let w ← linkGet e lab
      let lhs ← pvalAdd dl w
      let dr := (IdMap.get? dist e.yid).getD .pinf
      let lt ← pvalLt lhs dr
      if lt then pure (IdMap.set dist e.yid lhs, true)
      else pure (dist, changed))
    (dist, false)

/-- The `for i in range(D.order)` loop of `bellman_ford`, tracked by the
number of remaining passes: break early when a pass changes nothing;
when the final pass (`i == D.order - 1`) still changed something, a
negative cycle is reachable and the function returns the `None`
sentinel. -/
def bfLoop (links : List PyLink) (lab : String) :
    IdMap PVal → Nat → Except PyErr (Option (IdMap PVal))
  | dist, 0 => .ok (some dist)
  | dist, rem + 1 => do
      let (dist1, changed) ← bfPass links lab dist
      if changed = false then .ok (some dist1)
      else if rem = 0 then .ok none
      else bfLoop links lab dist1 rem

/-- `bellman_ford(D, s, label)` (ids mode, `include_prev=False`):
`ValueError` when `s` is absent; distances initialised to INF with the
source at 0; `D.order` relaxation passes with early exit; `None` (the
no-solution sentinel, not an exception) when the last pass changed. -/
def bellmanFord (D : PyDiGraph) (s : Nat) (lab : String) :
    Except PyErr (Option (IdMap PVal)) := do
  if ¬ IdMap.mem D.nodes s then
    .error .valueError
  else do
    let dist := (PyDiGraph.getNodes D).foldl (fun d x => IdMap.set d x .pinf) []
    let dist := IdMap.set dist s (.pint 0)
    bfLoop (PyDiGraph.getLinks D) lab dist (PyDiGraph.order D)

/-- Distance matrix of `floyd_warshall`. -/
abbrev Mat := IdMap (IdMap PVal)

/-- Successor matrix of `floyd_warshall`. -/
abbrev SuccMat := IdMap (IdMap (Option Nat))

/-- Matrix read `dist[x][y]`: both keys always exist after the
initialisation loop. -/
def mget (m : Mat) (x y : Nat) : Except PyErr PVal := do
  match IdMap.get? m x with
  | none => .error .keyError
  | some row =>
      match IdMap.get? row y with
      | none => .error .keyError
      | some v => .ok v

/-- Matrix write `dist[x][y] = v`: `KeyError` when the row is absent. -/
def msetE (m : Mat) (x y : Nat) (v : PVal) : Except PyErr Mat := do
  match IdMap.get? m x with
  | none => .error .keyError
  | some row => .ok (IdMap.set m x (IdMap.set row y v))

/-- Successor-matrix read. -/
def sget (m : SuccMat) (x y : Nat) : Except PyErr (Option Nat) := do
  match IdMap.get? m x with
  | none => .error .keyError
  | some row =>
      match IdMap.get? row y with
      | none => .error .keyError
      | some v => .ok v

/-- Successor-matrix write. -/
def ssetE (m : SuccMat) (x y : Nat) (v : Option Nat) : Except PyErr SuccMat := do
  match IdMap.get? m x with
  | none => .error .keyError
  | some row => .ok (IdMap.set m x (IdMap.set row y v))

/-- `floyd_warshall(D, label, include_succ)`: the initialisation loop
executes `dist[x], succ[x] = {}, {}` for every node; `succ` is a local
name bound only inside `if include_succ:`, so with the default
`include_succ=False` the very first node raises `UnboundLocalError`.
With `include_succ=True` the function runs the standard triple loop
(self-loops skipped when seeding edges, diagonal initialised to 0) and
returns `None` exactly when some diagonal entry went negative. -/
def floydWarshall (D : PyDiGraph) (lab : String) (includeSucc : Bool) :
    Except PyErr (Option (Mat × SuccMat)) := do
  let ns := PyDiGraph.getNodes D
  let init ← ns.foldlM
    (fun (st : Mat × SuccMat) x => do
      let (dist, succ) := st
      let dist := IdMap.set dist x []
      if includeSucc = false then
        .error .unboundLocalError
      else do
        let row := ns.foldl (fun r y => IdMap.set r y .pinf) []
        let row := IdMap.set row x (.pint 0)
        let srow := ns.foldl (fun r y => IdMap.set r (y : Nat) (none : Option Nat)) []
        let srow := IdMap.set srow x (some x)
        pure (IdMap.set dist x row, IdMap.set succ x srow))
    ([], [])
  let (dist, succ) := init
  let seeded ← (PyDiGraph.getLinks D).foldlM
    (fun (st : Mat × SuccMat) e => do
      let (dist, succ) := st
      if e.xid ≠ e.yid then do
        let w ← linkGet e lab
        let dist ← msetE dist e.xid e.yid w
        let succ ← ssetE succ e.xid e.yid (some e.yid)
        pure (dist, succ)
      else
        pure (dist, succ))
    (dist, succ)
  let (dist, succ) := seeded
  let final ← ns.foldlM
    (fun (st : Mat × SuccMat) z =>
      ns.foldlM
        (fun (st : Mat × SuccMat) x =>
          ns.foldlM
            (fun (st : Mat × SuccMat) y => do
              let (dist, succ) := st
              let dxy ← mget dist x y
              let dxz ← mget dist x z
              let dzy ← mget dist z y
              let sum ← pvalAdd dxz dzy
              let gt ← pvalLt sum dxy
              if gt then do
                let dist ← msetE dist x y sum
                let sxz ← sget succ x z
                let succ ← ssetE succ x y sxz
                pure (dist, succ)
              else
                pure (dist, succ))
            st)
        st)
    (dist, succ)
  let (dist, succ) := final
  let neg ← ns.foldlM
    (fun (found : Bool) x => do
      if found then
        pure true
      else do
        let dxx ← mget dist x x
        pvalLt dxx (.pint 0))
    false
  if neg then .ok none else .ok (some (dist, succ))

/-- The weighted undirected two-node graph 1 - 2 (link 30, weight 1
under label "w"). -/
def weightedPairGraph : Except PyErr PyGraph :=
  PyGraph.addEdge PyGraph.mkGraph (PyLink.mk 30 1 2 [("w", .pint 1)])

/-- The corresponding one-arc digraph 1 -> 2, weight 1 under "w". -/
def weightedPairDigraph : Except PyErr PyDiGraph :=
  PyDiGraph.addEdge PyDiGraph.mkDiGraph (PyLink.mk 30 1 2 [("w", .pint 1)])

/-- C2: on a two-node graph with a single non-negative edge, `dijkstra`
raises `TypeError` at its first relaxation — the generator subscripts
the link ids returned by the `as_links=False` default of
`get_edges_between` — while `bellman_ford` from the same source returns
the distance map, so the two cannot agree. -/
theorem C2_dijkstra_crashes_bellman_ford_answers :
    (weightedPairGraph >>= fun G => dijkstra G 1 "w") = .error .typeError ∧
    (weightedPairDigraph >>= fun D => bellmanFord D 1 "w") =
      .ok (some [(1, .pint 0), (2, .pint 1)]) := by
  constructor
  · rfl
  · rfl

/-- C8: on the directed two-cycle with both arcs of weight -1,
`bellman_ford` returns the `None` sentinel as specified, but
`floyd_warshall` with its default `include_succ=False` raises
`UnboundLocalError` at the first initialisation step instead of
reporting the negative cycle. -/
theorem C8_negative_cycle :
    (twoCycleDigraph >>= fun D => bellmanFord D 0 "w") = .ok none ∧
    (twoCycleDigraph >>= fun D => floydWarshall D "w" false) =
      .error .unboundLocalError := by
  constructor
  · rfl
  · rfl

/-- Sanity check kept alongside C8: with `include_succ=True` (the only
way past the unbound local), `floyd_warshall` does detect the negative
cycle through its diagonal and returns the `None` sentinel. -/
theorem C8_floyd_with_succ_detects_cycle :
    (twoCycleDigraph >>= fun D => floydWarshall D "w" true) = .ok none := by
  rfl

/-! ## Minimum cut (minimum_cut.py) -/

/-- The first statement of `karger` is the call `mincut_errors()` — with
no argument, although the signature of `mincut_errors` requires the
graph `G`.  CPython raises `TypeError` (missing required positional
argument) before binding any local of `karger`, so the call never
returns: its result type is empty. -/
def mincutErrorsNoArgs : Except PyErr Empty :=
  .error .typeError

/-- `karger(G, T)`: the body is the crashing `mincut_errors()` call
followed by code that can never run (the continuation is dispatched on
the empty result), so every invocation raises `TypeError` whatever the
graph or trial count. -/
def karger (_G : PyGraph) (_T : Option Nat) :
    Except PyErr ((List Nat × List Nat) × Nat) :=
  mincutErrorsNoArgs.bind (fun e => e.elim)

/-- `mincut_errors(G)` as written (the call karger should have made):
the `is_directed` branch is skipped for an undirected Graph, then
`connected(G)` runs with its default `ignore=None`. -/
def mincutErrors (G : PyGraph) : Except PyErr Unit := do
  let conn ← connected G none
  if conn = false then .error .valueError
  else if PyGraph.order G < 2 then .error .valueError
  else .ok ()

/-- The triangle graph on nodes 0, 1, 2 (links 40, 41, 42). -/
def triangleGraph : Except PyErr PyGraph :=
  PyGraph.addEdges PyGraph.mkGraph
    [PyLink.mk 40 0 1 [], PyLink.mk 41 1 2 [], PyLink.mk 42 2 0 []]

/-- C9: `karger` raises `TypeError` on every input — the validator is
invoked without its required graph argument as the very first statement
— so neither the documented domain errors nor the default trial count
`ceil(C(n,2) * ln(n))` is ever reached. -/
theorem C9_karger_crashes (G : PyGraph) (T : Option Nat) :
    karger G T = .error .typeError := by
  rfl

/-- Sanity check kept alongside C9: even calling `mincut_errors(G)`
directly, as the source intended, raises `TypeError` on a valid
connected triangle, because its `connected(G)` call inherits the
default-ignore crash of `graph_search`. -/
theorem C9_mincut_errors_applied_crashes :
    (triangleGraph >>= fun G => mincutErrors G) = .error .typeError := by
  rfl

/-! ## Transpose (DiGraph.transpose) and C10 -/

/-- The per-link flip of `transpose`:
`Link(e.uid, e.yid, e.xid, e.data)`. -/
def flipLink (e : PyLink) : PyLink :=
  PyLink.mk e.uid e.yid e.xid e.data

namespace PyDiGraph

/-- `DiGraph.copy`: `copy.deepcopy(self)` — a structurally identical,
fully independent value, which a pure embedding represents by the value
itself. -/
def copy (D : PyDiGraph) : PyDiGraph :=
  D

/-- `DiGraph.transpose(inplace)`: operate on `self` when `inplace` and
on a deepcopy otherwise (so the original digraph is untouched in the
`inplace=False` case); re-store every link flipped under its own uid,
then swap the forward and reverse indices wholesale. -/
def transpose (D : PyDiGraph) (inplace : Bool) : PyDiGraph :=
  let D1 := if inplace then D else copy D
  let edges1 := (getLinks D1).foldl
    (fun acc e => IdMap.set acc e.uid (flipLink e)) D1.edges
  { D1 with edges := edges1, forwardG := D1.reverseG, reverseG := D1.forwardG }

end PyDiGraph

theorem transpose_fold_cons (vs : List PyLink) (acc : IdMap PyLink)
    (k : Nat) (x : PyLink) (h : ∀ v ∈ vs, v.uid ≠ k) :
    vs.foldl (fun a e => IdMap.set a e.uid (flipLink e)) ((k, x) :: acc) =
      (k, x) :: vs.foldl (fun a e => IdMap.set a e.uid (flipLink e)) acc := by
  induction vs generalizing acc with
  | nil => rfl
  | cons v vs ih =>
      simp only [List.foldl_cons]
      have hv : k ≠ v.uid := fun he => h v (List.mem_cons_self _ _) he.symm
      have hstep : IdMap.set ((k, x) :: acc) v.uid (flipLink v) =
          (k, x) :: IdMap.set acc v.uid (flipLink v) := by
        simp [IdMap.set, hv]
      rw [hstep]
      exact ih _ (fun w hw => h w (List.mem_cons_of_mem _ hw))

theorem transpose_fold_eq_map (l : IdMap PyLink)
    (hk : (IdMap.keys l).Nodup) (hu : ∀ p ∈ l, (p.2 : PyLink).uid = p.1) :
    (l.map Prod.snd).foldl (fun a e => IdMap.set a e.uid (flipLink e)) l =
      l.map (fun p => (p.1, flipLink p.2)) := by
  induction l with
  | nil => rfl
  | cons p rest ih =>
      obtain ⟨k, e⟩ := p
      have huid : e.uid = k := hu (k, e) (List.mem_cons_self _ _)
      simp only [IdMap.keys, List.map_cons, List.nodup_cons] at hk
      simp only [List.map_cons, List.foldl_cons]
      have hstep : IdMap.set ((k, e) :: rest) e.uid (flipLink e) =
          (k, flipLink e) :: rest := by
        simp [IdMap.set, huid]
      rw [hstep]
      have hne : ∀ v ∈ rest.map Prod.snd, v.uid ≠ k := by
        intro v hv heq
        obtain ⟨q, hq, rfl⟩ := List.mem_map.mp hv
        have hqu : q.2.uid = q.1 := hu q (List.mem_cons_of_mem _ hq)
        exact hk.1 (by
          rw [hqu] at heq
          exact heq ▸ List.mem_map.mpr ⟨q, hq, rfl⟩)
      rw [transpose_fold_cons _ _ _ _ hne]
      have hrest := ih hk.2 (fun q hq => hu q (List.mem_cons_of_mem _ hq))
      rw [hrest]

/-- C10: `transpose(inplace=False)` operates on a deepcopy (the original
digraph value is untouched), returns the digraph with every stored link
flipped in place under its own uid and the two adjacency indices
swapped, with the nodes unchanged; applying it twice restores the
original digraph exactly (uids, endpoints, data, both indices).  The
hypotheses state that the edge dict is well formed: unique keys and
each link stored under its own uid — invariants of every dict the
class builds. -/
theorem C10_transpose_involution (D : PyDiGraph)
    (hk : (IdMap.keys D.edges).Nodup)
    (hu : ∀ p ∈ D.edges, (p.2 : PyLink).uid = p.1) :
    (PyDiGraph.transpose D false).edges =
        D.edges.map (fun p => (p.1, flipLink p.2)) ∧
    (PyDiGraph.transpose D false).forwardG = D.reverseG ∧
    (PyDiGraph.transpose D false).reverseG = D.forwardG ∧
    (PyDiGraph.transpose D false).nodes = D.nodes ∧
    PyDiGraph.transpose (PyDiGraph.transpose D false) false = D := by
  have h1 : (PyDiGraph.transpose D false).edges =
      D.edges.map (fun p => (p.1, flipLink p.2)) :=
    transpose_fold_eq_map D.edges hk hu
  refine ⟨h1, rfl, rfl, rfl, ?_⟩
  have hk1 : (IdMap.keys (PyDiGraph.transpose D false).edges).Nodup := by
    rw [h1]
    simpa [IdMap.keys, List.map_map, Function.comp] using hk
  have hu1 : ∀ p ∈ (PyDiGraph.transpose D false).edges,
      (p.2 : PyLink).uid = p.1 := by
    rw [h1]
    intro p hp
    obtain ⟨q, hq, rfl⟩ := List.mem_map.mp hp
    exact hu q hq
  have h2 : (PyDiGraph.transpose (PyDiGraph.transpose D false) false).edges =
      (PyDiGraph.transpose D false).edges.map (fun p => (p.1, flipLink p.2)) :=
    transpose_fold_eq_map _ hk1 hu1
  have hflip : ∀ p : Nat × PyLink,
      ((fun p : Nat × PyLink => (p.1, flipLink p.2)) ∘
        (fun p : Nat × PyLink => (p.1, flipLink p.2))) p = p := by
    intro p
    rfl
  have hE : (PyDiGraph.transpose (PyDiGraph.transpose D false) false).edges =
      D.edges := by
    rw [h2, h1, List.map_map]
    exact (List.map_congr_left (fun p _ => hflip p)).trans (List.map_id _)
  exact congrArg (fun es => PyDiGraph.mk D.nodes es D.forwardG D.reverseG) hE

/-- A concrete two-arc digraph with well-formed edge dict, used to
witness C10. -/
def transposePairDigraph : PyDiGraph :=
  { nodes := [(0, PyNode.mk 0 []), (1, PyNode.mk 1 [])],
    edges := [(20, PyLink.mk 20 0 1 [("w", .pint 3)]), (21, PyLink.mk 21 1 0 [])],
    forwardG := [(0, [(1, [20])]), (1, [(0, [21])])],
    reverseG := [(0, [(1, [21])]), (1, [(0, [20])])] }

/-- Witness for C10_transpose_involution at a concrete digraph. -/
theorem C10_transpose_involution_witness :
    (PyDiGraph.transpose transposePairDigraph false).edges =
        transposePairDigraph.edges.map (fun p => (p.1, flipLink p.2)) ∧
    (PyDiGraph.transpose transposePairDigraph false).forwardG =
        transposePairDigraph.reverseG ∧
    (PyDiGraph.transpose transposePairDigraph false).reverseG =
        transposePairDigraph.forwardG ∧
    (PyDiGraph.transpose transposePairDigraph false).nodes =
        transposePairDigraph.nodes ∧
    PyDiGraph.transpose (PyDiGraph.transpose transposePairDigraph false) false =
        transposePairDigraph :=
  C10_transpose_involution transposePairDigraph (by decide) (by decide)
